import Mathlib

/-!
Verification of the `reubenloo/shopify_orders` order-conversion pipeline
(`convert_orders.py`, version 2.0.0, 42-column international template).

A pandas `DataFrame` of Shopify order rows is modelled as a `List Row`.
A cell that pandas would hold as `NaN` is modelled as `none`; a present
cell is `some s` where `s` is the cell's string content.  Pandas row
indexes (which after `read_csv` are `0, 1, 2, ...` in list order and are
only used by `clean_shopify_data` to pick the first/last row of a group
and to drop rows) are modelled positionally.  The temporary
`order_number` helper column that `clean_shopify_data` adds at line 18
and drops at line 48 is modelled as the derived function `order_number`
(a Shopify export has no column of that name, so adding and dropping it
is invisible on the modelled schema).
-/

namespace ShopifyOrders

/-! Python string primitives, implemented on the character list of the
string so that every definition evaluates by kernel reduction. -/

/-- Python `s.replace(c, '')` for a one-character pattern: remove every
occurrence of the character. -/
def remove_char (c : Char) (s : String) : String :=
  ⟨s.data.filter (fun x => x ≠ c)⟩

/-- Python `s[:n]`. -/
def py_take (n : Nat) (s : String) : String :=
  ⟨s.data.take n⟩

/-- Python `s.upper()` (ASCII). -/
def py_upper (s : String) : String :=
  ⟨s.data.map Char.toUpper⟩

/-- Python `s.strip()`: drop leading and trailing whitespace. -/
def py_strip (s : String) : String :=
  ⟨((s.data.dropWhile Char.isWhitespace).reverse.dropWhile Char.isWhitespace).reverse⟩

/-- Python `s.split(" ")[0]`: the characters before the first space. -/
def first_token (s : String) : String :=
  ⟨s.data.takeWhile (fun c => c ≠ ' ')⟩

/-- One Shopify export row.  The named fields are the columns that
`convert_orders.py` reads or writes; `others` carries any further
columns of the export (they are never touched by the code). -/
structure Row where
  name : String
  financialStatus : Option String
  shippingCountry : Option String
  shippingName : Option String
  shippingAddress1 : Option String
  shippingAddress2 : Option String
  shippingCity : Option String
  shippingProvince : Option String
  shippingProvinceName : Option String
  shippingZip : Option String
  shippingPhone : Option String
  email : Option String
  lineitemQuantity : Option String
  lineitemName : Option String
  lineitemPrice : Option String
  lineitemDiscount : Option String
  others : List (String × Option String)
  deriving Repr, DecidableEq

/-- Line 18: `df['Name'].str.replace('#', '').astype(str)` — the order
number is the `Name` cell with every `#` removed. -/
def order_number (r : Row) : String :=
  remove_char (Char.ofNat 35) r.name

/-- Lines 36-38: copy the four `lineitem_columns` from the group's last
row into the group's first row. -/
def lineitem_merge (first last : Row) : Row :=
  { first with
    lineitemQuantity := last.lineitemQuantity
    lineitemName := last.lineitemName
    lineitemPrice := last.lineitemPrice
    lineitemDiscount := last.lineitemDiscount }

/-- Helper for `uniqueFirst`: keep the elements not seen before. -/
def uniqueFirstAux {α : Type} [DecidableEq α] (seen : List α) : List α → List α
  | [] => []
  | a :: rest =>
    if a ∈ seen then uniqueFirstAux seen rest
    else a :: uniqueFirstAux (a :: seen) rest

/-- `Series.unique()`: the distinct values of a list in order of first
appearance. -/
def uniqueFirst {α : Type} [DecidableEq α] (l : List α) : List α :=
  uniqueFirstAux [] l

/-- Lines 21-22: order numbers of rows marked by
`duplicated(subset=['order_number'], keep=False)`, deduplicated in order
of first appearance. -/
def dup_order_numbers (rows : List Row) : List String :=
  uniqueFirst
    ((rows.filter
        (fun r => decide (2 ≤ rows.countP (fun q => order_number q == order_number r)))).map
      order_number)

/-- Replace the first row whose order number is `onum` by `merged` and
drop every later row with that order number (lines 38 and 41:
`df.at[first_row_index, col] = ...` followed by
`df.drop(order_rows.index[1:])`). -/
def replace_group (onum : String) (merged : Row) : List Row → List Row
  | [] => []
  | r :: rs =>
    if order_number r == onum then
      merged :: rs.filter (fun q => !(order_number q == onum))
    else
      r :: replace_group onum merged rs

/-- One iteration of the loop at lines 29-42: re-select the rows of the
order, and when there are at least two of them, keep the first with the
last row's line-item data. -/
def merge_step (rows : List Row) (onum : String) : List Row :=
  match rows.filter (fun r => order_number r == onum) with
  | [] => rows
  | [_] => rows
  | r0 :: r1 :: rest =>
    replace_group onum (lineitem_merge r0 ((r1 :: rest).getLast (List.cons_ne_nil _ _))) rows

/-- Lines 15-50: merge amended orders (loop over the duplicated order
numbers), then drop rows whose `Financial Status` is `NaN`
(line 45: `df[df['Financial Status'].notna()]`). -/
def clean_shopify_data (rows : List Row) : List Row :=
  ((dup_order_numbers rows).foldl merge_step rows).filter
    (fun r => r.financialStatus.isSome)

/-- Lines 52-68: split the cleaned orders into the four country buckets
`(intl, sg, us, ca)`.  As in pandas, a `NaN` country compares unequal to
every country code, so such rows land in the international bucket. -/
def filter_international_orders (rows : List Row) :
    List Row × List Row × List Row × List Row :=
  (rows.filter (fun r =>
      !(r.shippingCountry == some "SG") && !(r.shippingCountry == some "US")
        && !(r.shippingCountry == some "CA")),
   rows.filter (fun r => r.shippingCountry == some "SG"),
   rows.filter (fun r => r.shippingCountry == some "US"),
   rows.filter (fun r => r.shippingCountry == some "CA"))

/-- Python's `sub in s` substring test. -/
def containsSub (s sub : String) : Bool :=
  decide (List.IsInfix sub.data s.data)

/-- Lines 70-107: `parse_product_details` — substring classification of
a line-item name into `(is_bundle, material, size)`. -/
def parse_product_details (lineitem_name : String) : Bool × String × String :=
  let n := py_upper lineitem_name
  let bundle := containsSub n "BUNDLE" || containsSub n "2 PAIRS" || containsSub n "BUNDLE OF 2"
  let material :=
    if containsSub n "COTTON" then "Cotton"
    else if containsSub n "TENCEL" then "Tencel"
    else "Unknown"
  let size :=
    if containsSub n "100-110" then "(100-110cm)"
    else if containsSub n "110-120" then "(110-120cm)"
    else if containsSub n "120-130" then "(120-130cm)"
    else if containsSub n "130-140" then "(130-140cm)"
    else if containsSub n "140-150" then "XS (140-150cm)"
    else if containsSub n "150-160" then "S (150-160cm)"
    else if containsSub n "160-170" then "M (160-170cm)"
    else if containsSub n "170-180" then "L (170-180cm)"
    else if containsSub n "180-190" then "XL (180-190cm)"
    else "Unknown"
  (bundle, material, size)

/-- Lines 9-13: `safe_str_slice` — `''` for `NaN`, otherwise the first
`length` characters. -/
def safe_str_slice (v : Option String) (n : Nat) : String :=
  match v with
  | none => ""
  | some s => py_take n s

/-- The apostrophe character. -/
def squote : Char := Char.ofNat 39

/-- `str(row['Shipping Zip'])`: Python's `str` of a `NaN` cell is the
string `nan`. -/
def zip_str (r : Row) : String :=
  match r.shippingZip with
  | none => "nan"
  | some s => s

/-- The postcode field: `safe_str_slice(str(row['Shipping Zip']), 10).replace("'", "")`. -/
def zip_field (r : Row) : String :=
  remove_char squote (py_take 10 (zip_str r))

/-- Lines 196-201 / 312-317: state from `Shipping Province Name`,
falling back to `Shipping Province`, else `''`. -/
def state_of (r : Row) : String :=
  match r.shippingProvinceName with
  | some s => py_take 30 s
  | none =>
    match r.shippingProvince with
    | some s => py_take 30 s
    | none => ""

/-- Lines 204 / 320: address line 2, or `NA` when missing/blank. -/
def address_line_2 (r : Row) : String :=
  match r.shippingAddress2 with
  | some s => if py_strip s ≠ "" then py_take 35 s else "NA"
  | none => "NA"

/-- Lines 210-219 / 326-335: compress the size band for the product
description (identical code in both row builders). -/
def format_size_str (size : String) : String :=
  if containsSub size "(100-110cm)" then "(100cm)"
  else if containsSub size "(110-120cm)" then "(110cm)"
  else if containsSub size "(120-130cm)" then "(120cm)"
  else if containsSub size "(130-140cm)" then "(130cm)"
  else if containsSub size " " then first_token size
  else size

/-- `f"Eczema Bolero Shrug {quantity_str}{size_str} {material}"`. -/
def simplified_description (is_bundle : Bool) (material size : String) : String :=
  "Eczema Bolero Shrug " ++ (if is_bundle then "2" else "1") ++ format_size_str size
    ++ " " ++ material

/-- Lines 175-287: `create_intl_singpost_row` — the 42-column
retail-speedpost-worldwide-multiple row, as the insertion-ordered
(key, value) pairs of the Python dict.  Numeric cells (weights,
dimensions, declared value) are modelled by their CSV decimal
renderings; a `NaN` line-item quantity renders as the empty cell. -/
def create_intl_singpost_row (r : Row) (is_bundle : Bool)
    (material size hs_code declared_value : String) : List (String × String) :=
  let weight_kg := if is_bundle then "0.5" else "0.25"
  let height := if is_bundle then "4" else "2"
  [("Send to business name (Max 35 characters) - *", safe_str_slice r.shippingName 35),
   ("Send to contact person (Max 35 characters) ", safe_str_slice r.shippingName 35),
   ("Send to address line 1 eg. Block no. (Max 35 characters) - *",
     safe_str_slice r.shippingAddress1 35),
   ("Send to address line 2 eg. Street name and Unit no. (Max 35 characters)- *",
     address_line_2 r),
   ("Send to address line 3 eg. Building name (Max 35 Characters)", ""),
   ("Send to town (Max 30 characters) (Please spell in full)",
     safe_str_slice r.shippingCity 30),
   ("Send to state (Max 30 characters) (Please spell in full)", state_of r),
   ("Send to country (Max 2 characters) - * (Refer to Country List sheet)",
     safe_str_slice r.shippingCountry 2),
   ("Send to postcode (Max 10 characters)", zip_field r),
   ("Send to phone no. (Max 20 characters)", safe_str_slice r.shippingPhone 20),
   ("Sender VAT/GST number (Max 50 characters) - Sender IOSS number for European Union (EU) destinations, or VAT/GST number for specific destination where applicable.",
     ""),
   ("Receiver VAT/GST number (Max 50 characters)", ""),
   ("Sender Reference (Max 20 characters)", py_take 20 r.name),
   ("Category of shipment - Please type in either D (for document) M (for merchandise) S (for sample) or O (for others) (Max 1 character) - *",
     "M"),
   ("If \"Others\", please describe (Max 50 characters)", ""),
   ("Total Item physical weight (min 0.001 kg) - *", weight_kg),
   ("Item Length (cm)", "20"),
   ("Item Width (cm)", "10"),
   ("Item Height (cm)", height),
   (" Item Content No. 1 Description  (Max 50 characters) - *",
     simplified_description is_bundle material size),
   ("Item Content No. 1 Quantity - *", r.lineitemQuantity.getD ""),
   ("Item Content No. 1 Weight (min 0.001 kg) - *", weight_kg),
   (" Item Content No. 1 Declared value (SGD)", declared_value),
   ("Item Content No. 1 HS tariff number (Max 6 characters)", hs_code),
   ("Item Content No. 1 Country of origin (Max 2 characters) - * (Refer to Country List sheet) ",
     "SG"),
   ("Item  Content No. 2 Description (Max 50 characters) ", ""),
   ("Item  Content No. 2 Quantity - *", ""),
   ("Item  Content No. 2 Weight (min 0.001 kg) - *", ""),
   ("Item  Content No. 2 Declared Value (SGD)", ""),
   ("Item Content No. 2 HS tariff number (Max 6 characters)", ""),
   ("Item Content No. 2 Country of origin(Max 2 characters) (Refer to Country List sheet) \n",
     ""),
   ("Item  Content No. 3 Description (Max 50 characters) ", ""),
   ("Item  Content No. 3 Quantity - *", ""),
   ("Item  Content No. 3 Weight (min 0.001 kg) - *", ""),
   ("Item  Content No. 3 Declared Value (SGD)", ""),
   ("Item Content No. 3 HS tariff number (Max 6 characters)", ""),
   ("Item Content No. 3 Country of origin(Max 2 characters) (Refer to Country List sheet) \n",
     ""),
   ("Enhanced Liability Amount (must be equal or lower than Declared value)", ""),
   ("Invoice number", r.name),
   ("Certificate number", ""),
   ("Export license number", ""),
   ("Service code - Refer to Service List sheet (Max 20 characters)  - *", "IRREPK")]

/-- Lines 290-414: `create_us_singpost_row` — the 55-column ezy2ship
row, with the USD price fetched per order from the Shopify API. -/
def create_us_singpost_row (r : Row) (is_bundle : Bool)
    (material size hs_code usd_price : String) : List (String × String) :=
  let weight_kg := if is_bundle then "0.5" else "0.25"
  let height := if is_bundle then "4" else "2"
  [("Cost centre code (Max 40 characters)", ""),
   ("Sender VAT/GST number (Max 50 characters)", ""),
   ("Send to business name (Max 35 characters) - *", safe_str_slice r.shippingName 35),
   ("Send to contact person (Max 35 characters)", safe_str_slice r.shippingName 35),
   ("Send to address line 1 eg. Block no. (Max 35 characters) - *",
     safe_str_slice r.shippingAddress1 35),
   ("Send to address line 2 eg. Street name and Unit no. (Max 35 characters)- *",
     address_line_2 r),
   ("Send to address line 3 eg. Building name (Max 35 Characters)", ""),
   ("Send to town (Max 30 characters) (Please spell in full)",
     safe_str_slice r.shippingCity 30),
   ("Send to state (Max 30 characters) (Please spell in full)", state_of r),
   ("Send to country (Max 2 characters) - * (Refer to Country List sheet)",
     safe_str_slice r.shippingCountry 2),
   ("Send to postcode (Max 10 characters)", zip_field r),
   ("Send to phone no. (Max 20 characters)", safe_str_slice r.shippingPhone 20),
   ("Send to email address", r.email.getD ""),
   ("Issuing Country of IOSS Number (Country code 2 characters) - only required if sending to EU and IOSS Number is provided",
     ""),
   ("Receiver VAT/GST number (Max 50 characters)", ""),
   ("Recipient EORI ID", ""),
   ("Issuing Country of Recipient EORI ID (Country code 2 characters) - required if the EORI Number is provided",
     ""),
   ("Sender Reference (Max 20 characters)", py_take 20 r.name),
   ("Item Type - Please type in either D (for document) or P (for package) - (Max 1 character) - *",
     "P"),
   ("Category of shipment - Please type in either D (for document) M (for merchandise) S (for sample) or O (for others) (Max 1 character) - *",
     "M"),
   ("If \"Others\", please describe (Max 50 characters)", ""),
   ("Total Item physical weight (min 0.001 kg) - *", weight_kg),
   ("Item Length (cm)", "20"),
   ("Item Width (cm)", "10"),
   ("Item Height (cm)", height),
   ("Item Content No. 1 Description  (Max 50 characters) - *",
     simplified_description is_bundle material size),
   ("Item Content No. 1 Quantity", r.lineitemQuantity.getD ""),
   ("Item Content No. 1 Weight (min 0.001 kg)", weight_kg),
   ("Item Content No. 1 Declared Currency (Only USD) *", "USD"),
   ("Item Content No. 1 Declared value *", usd_price),
   ("Item Content No. 1 HS tariff number (10 characters) *", hs_code),
   ("Item Content No. 1 Country of origin (Max 2 characters) - * (Refer to Country List sheet)",
     "SG"),
   ("Item  Content No. 2 Description (Max 50 characters)", ""),
   ("Item  Content No. 2 Quantity", ""),
   ("Item Content No. 2 Weight (min 0.001 kg)", ""),
   ("Item Content No. 2 Declared Currency *", ""),
   ("Item content No. 2 Declared value", ""),
   ("Item Content No. 2 HS tariff number (10 characters) *", ""),
   ("Item Content No. 2 Country of origin(Max 2 characters) (Refer to Country List sheet)", ""),
   ("Item  Content No. 3 Description (Max 50 characters)", ""),
   ("Item  Content No. 3 Quantity", ""),
   ("Item Content No. 3 Weight (min 0.001 kg)", ""),
   ("Item Content No. 3 Declared Currency *", ""),
   ("Item content No. 3 Declared value", ""),
   ("Item Content No. 3 HS tariff number (10 characters) *", ""),
   ("Item Content No. 3 Country of origin(Max 2 characters) (Refer to Country List sheet)", ""),
   ("Enhanced Liability Amount (must be equal or lower than Declared value)", ""),
   ("Invoice number", r.name),
   ("Certificate number", ""),
   ("Export license number", ""),
   ("Service code - Refer to Service List sheet (Max 20 characters)  - *", "WWCCOM"),
   ("Receiver ID Type", ""),
   ("Receiver ID Number (Max 50 characters)", ""),
   ("Tax ID (Max 35 characters)", ""),
   ("Product URL (Max 100 characters)", "")]

/-- Lines 510-530: build one international export row — SGD declared
value 40 for a bundle, otherwise 20; 6-digit HS code by material with
cotton as the default. -/
def mk_intl_row (r : Row) : List (String × String) :=
  let pd := parse_product_details (r.lineitemName.getD "")
  let declared_value := if pd.1 then "40" else "20"
  let hs_code :=
    if pd.2.1 == "Cotton" then "611420"
    else if pd.2.1 == "Tencel" then "611430"
    else "611420"
  create_intl_singpost_row r pd.1 pd.2.1 pd.2.2 hs_code declared_value

/-- Lines 492-508: build one US export row — the USD price comes from
the Shopify price oracle keyed by the stripped order number; 10-digit
HS code by material with cotton as the default. -/
def mk_us_row (r : Row) (usd_prices : String → String) : List (String × String) :=
  let pd := parse_product_details (r.lineitemName.getD "")
  let order_num := py_strip (remove_char (Char.ofNat 35) r.name)
  let hs_code :=
    if pd.2.1 == "Cotton" then "6114200060"
    else if pd.2.1 == "Tencel" then "6114303070"
    else "6114200060"
  create_us_singpost_row r pd.1 pd.2.1 pd.2.2 hs_code (usd_prices order_num)

/-- A written CSV: the header cells and the data rows. -/
abbrev Csv := List String × List (List String)

/-- `pd.DataFrame(list_of_dicts).columns`: the union of the dict keys in
order of first appearance. -/
def dfColumns (data : List (List (String × String))) : List String :=
  uniqueFirst ((data.map (fun d => d.map Prod.fst)).flatten)

/-- One cell of the materialised frame: the dict's value for the column,
or the empty cell (pandas `NaN`, written as `''` by `to_csv`) when the
dict lacks the key. -/
def df_cell (d : List (String × String)) (c : String) : String :=
  (d.lookup c).getD ""

/-- Materialise the frame built from the row dicts, as written by
`to_csv(index=False, ...)`: the header line then one line per row. -/
def mk_csv (data : List (List (String × String))) : Csv :=
  (dfColumns data, data.map (fun d => (dfColumns data).map (df_cell d)))

/-- Line 631: the international validation error message. -/
def intl_error_msg (n : Nat) : String :=
  "International CSV validation error: Expected 42 columns, got " ++ toString n

/-- Line 662: the US validation error message. -/
def us_error_msg (n : Nat) : String :=
  "US CSV validation error: Expected 55 columns, got " ++ toString n

/-- Lines 626-641: if there are international rows, validate the column
count (raising `ValueError` on a mismatch, before any write) and write
the 42-column CSV; with no rows, no file is produced. -/
def write_intl_csv (data : List (List (String × String))) : Except String (Option Csv) :=
  if data = [] then Except.ok none
  else if (dfColumns data).length ≠ 42 then Except.error (intl_error_msg (dfColumns data).length)
  else Except.ok (some (mk_csv data))

/-- Lines 655-672: the same stage for the 55-column US CSV. -/
def write_us_csv (data : List (List (String × String))) : Except String (Option Csv) :=
  if data = [] then Except.ok none
  else if (dfColumns data).length ≠ 55 then Except.error (us_error_msg (dfColumns data).length)
  else Except.ok (some (mk_csv data))

/-- The effectful context of a run of `convert_shopify_to_singpost`:
whether the Shopify price API calls succeed (lines 428-436), the USD
price each order number resolves to, and the Google-credentials /
template-URL environment read at lines 690-695. -/
structure ConvertEnv where
  usFetchOk : Bool
  usdPrices : String → String
  credentialsAvailable : Bool
  templateId : Option String

/-- The observable outcome of a run: the returned value (or the
propagated exception) and whether `create_shipping_slides` was
invoked. -/
structure ConvertRun where
  result : Except String (Option Csv × Option Csv)
  slidesCalled : Bool

/-- Lines 416-711: `convert_shopify_to_singpost` — clean, bucket by
country, assemble the per-region export rows, validate and write the
two CSVs, and (for a nonempty Singapore bucket, when credentials are
available and a template id parses) call `create_shipping_slides`.
The returned text summary and the per-region product counters do not
affect the exported data and are not modelled. -/
def convert_shopify_to_singpost (df : List Row) (env : ConvertEnv) : ConvertRun :=
  let cleaned := clean_shopify_data df
  let buckets := filter_international_orders cleaned
  let intl := buckets.1
  let sg := buckets.2.1
  let us := buckets.2.2.1
  if !us.isEmpty && !env.usFetchOk then
    { result := Except.error "Error fetching USD prices from Shopify API", slidesCalled := false }
  else
    let intl_data := intl.map mk_intl_row
    let us_data := us.map (fun r => mk_us_row r env.usdPrices)
    match write_intl_csv intl_data with
    | Except.error e => { result := Except.error e, slidesCalled := false }
    | Except.ok intlCsv =>
      match write_us_csv us_data with
      | Except.error e => { result := Except.error e, slidesCalled := false }
      | Except.ok usCsv =>
        { result := Except.ok (intlCsv, usCsv)
          slidesCalled := !sg.isEmpty && env.credentialsAvailable && env.templateId.isSome }

/-- The international CSV a run produced, if any. -/
def intl_csv_of (df : List Row) (env : ConvertEnv) : Option Csv :=
  match (convert_shopify_to_singpost df env).result with
  | Except.ok p => p.1
  | Except.error _ => none

/-- The US CSV a run produced, if any. -/
def us_csv_of (df : List Row) (env : ConvertEnv) : Option Csv :=
  match (convert_shopify_to_singpost df env).result with
  | Except.ok p => p.2
  | Except.error _ => none

/-! ### The CSV file format of the export

`to_csv` is called with `sep=','`, `quoting=1` (QUOTE_ALL),
`quotechar='"'`, `escapechar='\\'` and the default `doublequote=True`;
pandas delegates to the standard `csv` writer.  In this dialect every
cell is written quoted; an embedded quotechar is doubled, and — on
Python 3.10 and later — the writer also escapes the configured
escapechar itself, so a backslash in the data is written as a doubled
backslash even inside a quoted field.  Reading back uses the
`pd.read_csv` defaults: quotechar `"` with doubled quotes (the reader
has no escapechar, so a doubled backslash stays doubled), and any cell
whose text is one of the default NA tokens (the empty string, `NA`,
`NaN`, `NULL`, `None`, ...) becomes `NaN`.  Cells are modelled as their
string tokens; the subsequent per-column dtype inference that pandas
applies to these tokens is outside the model.  The file is modelled as
its character list. -/

/-- The double-quote character. -/
def dquote : Char := Char.ofNat 34

/-- The backslash character — the `escapechar` of the `to_csv` calls. -/
def bslash : Char := Char.ofNat 92

/-- The `csv` writer's transformation of quoted field content: an
embedded quotechar is doubled (`doublequote=True`) and, since Python
3.10, the escapechar itself is escaped, so a data backslash is written
as two backslashes. -/
def escape_cell : List Char → List Char
  | [] => []
  | c :: cs =>
    if c = dquote then dquote :: dquote :: escape_cell cs
    else if c = bslash then bslash :: bslash :: escape_cell cs
    else c :: escape_cell cs

/-- The part of the writer's escaping that the default reader does not
invert: every backslash doubled (the reader undoes only the quote
doubling). -/
def escape_bslash : List Char → List Char
  | [] => []
  | c :: cs =>
    if c = bslash then bslash :: bslash :: escape_bslash cs
    else c :: escape_bslash cs

/-- `escape_bslash` on a string: what a written cell reads back as,
before NA-token conversion. -/
def bslash_doubled (s : String) : String :=
  ⟨escape_bslash s.data⟩

/-- Write one cell under QUOTE_ALL: always quoted. -/
def write_cell (s : String) : List Char :=
  dquote :: (escape_cell s.data ++ [dquote])

/-- Write one record: the quoted cells joined by the `,` separator. -/
def write_row : List String → List Char
  | [] => []
  | [c] => write_cell c
  | c :: cs => write_cell c ++ ',' :: write_row cs

/-- Write the file: one line per record, each terminated by `\n`. -/
def write_csv : List (List String) → List Char
  | [] => []
  | r :: rs => write_row r ++ '\n' :: write_csv rs

/-- The default NA tokens of the pandas CSV parser
(`pandas._libs.parsers.STR_NA_VALUES`): a parsed cell equal to one of
these becomes `NaN` under the `pd.read_csv` defaults. -/
def default_na_values : List String :=
  ["", "#N/A", "#N/A N/A", "#NA", "-1.#IND", "-1.#QNAN", "-NaN", "-nan",
   "1.#IND", "1.#QNAN", "<NA>", "N/A", "NA", "NULL", "NaN", "None",
   "n/a", "nan", "null"]

/-- The value `pd.read_csv` yields for a parsed cell token: `NaN` for a
default NA token, the token itself otherwise. -/
def read_cell (s : String) : Option String :=
  if s ∈ default_na_values then none else some s

/-- `read_cell` on the character list of a cell. -/
def read_cell_chars (cs : List Char) : Option String :=
  read_cell ⟨cs⟩

/-- Scan a quoted field after its opening quote: a doubled quotechar is
a literal quote, a lone quotechar closes the field.  Returns the field
content (the accumulator is kept reversed) and the unconsumed input. -/
def read_quoted : List Char → List Char → Option (List Char × List Char)
  | [], _ => none
  | c :: cs, acc =>
    if c = dquote then
      match cs with
      | [] => some (acc.reverse, [])
      | c2 :: cs2 =>
        if c2 = dquote then read_quoted cs2 (dquote :: acc)
        else some (acc.reverse, c2 :: cs2)
    else read_quoted cs (c :: acc)

/-- Parse the cells of one record (fuelled): each cell must open with a
quote; after the field, `,` continues the record and `\n` (or the end
of input) ends it. -/
def parse_cells : Nat → List Char → Option (List (Option String) × List Char)
  | 0, _ => none
  | Nat.succ f, cs =>
    match cs with
    | [] => none
    | c :: cs1 =>
      if c = dquote then
        match read_quoted cs1 [] with
        | none => none
        | some (cell, rest) =>
          match rest with
          | [] => some ([read_cell_chars cell], [])
          | r :: rest1 =>
            if r = ',' then
              match parse_cells f rest1 with
              | none => none
              | some (cells, rest2) => some (read_cell_chars cell :: cells, rest2)
            else if r = '\n' then some ([read_cell_chars cell], rest1)
            else none
      else none

/-- Parse the records of the file (fuelled). -/
def parse_rows : Nat → List Char → Option (List (List (Option String)))
  | 0, cs => if cs = [] then some [] else none
  | Nat.succ f, cs =>
    if cs = [] then some []
    else
      match parse_cells (cs.length + 1) cs with
      | none => none
      | some (row, rest) =>
        match parse_rows f rest with
        | none => none
        | some rows => some (row :: rows)

/-- Parse a whole CSV file. -/
def parse_csv (cs : List Char) : Option (List (List (Option String))) :=
  parse_rows (cs.length + 1) cs

/-- Equality of two rows on every column other than the four line-item
columns that `clean_shopify_data` may overwrite. -/
def non_lineitem_eq (a b : Row) : Bool :=
  a.name == b.name && a.financialStatus == b.financialStatus
    && a.shippingCountry == b.shippingCountry && a.shippingName == b.shippingName
    && a.shippingAddress1 == b.shippingAddress1 && a.shippingAddress2 == b.shippingAddress2
    && a.shippingCity == b.shippingCity && a.shippingProvince == b.shippingProvince
    && a.shippingProvinceName == b.shippingProvinceName && a.shippingZip == b.shippingZip
    && a.shippingPhone == b.shippingPhone && a.email == b.email
    && a.others == b.others

/-! ### Lemmas about `uniqueFirst` -/

theorem mem_uniqueFirstAux {α : Type} [DecidableEq α] {a : α} (seen l : List α) :
    a ∈ uniqueFirstAux seen l ↔ a ∈ l ∧ a ∉ seen := by
  induction l generalizing seen with
  | nil => simp [uniqueFirstAux]
  | cons b rest ih =>
    by_cases hb : b ∈ seen
    · simp only [uniqueFirstAux, if_pos hb, ih, List.mem_cons]
      constructor
      · rintro ⟨h1, h2⟩
        exact ⟨Or.inr h1, h2⟩
      · rintro ⟨h1, h2⟩
        rcases h1 with rfl | h1
        · exact absurd hb h2
        · exact ⟨h1, h2⟩
    · simp only [uniqueFirstAux, if_neg hb, List.mem_cons, ih]
      by_cases hab : a = b
      · subst hab
        simp [hb]
      · simp [hab]

theorem mem_uniqueFirst {α : Type} [DecidableEq α] {a : α} (l : List α) :
    a ∈ uniqueFirst l ↔ a ∈ l := by
  simp [uniqueFirst, mem_uniqueFirstAux]

theorem nodup_uniqueFirstAux {α : Type} [DecidableEq α] (seen l : List α) :
    (uniqueFirstAux seen l).Nodup := by
  induction l generalizing seen with
  | nil => simp [uniqueFirstAux]
  | cons b rest ih =>
    by_cases hb : b ∈ seen
    · simpa [uniqueFirstAux, if_pos hb] using ih seen
    · simp only [uniqueFirstAux, if_neg hb]
      refine List.nodup_cons.mpr ⟨?_, ih _⟩
      intro hmem
      exact ((mem_uniqueFirstAux _ _).mp hmem).2 (List.mem_cons_self _ _)

theorem nodup_uniqueFirst {α : Type} [DecidableEq α] (l : List α) :
    (uniqueFirst l).Nodup :=
  nodup_uniqueFirstAux [] l

/-! ### How `merge_step` acts on the per-order-number row groups -/

theorem order_number_lineitem_merge (a b : Row) :
    order_number (lineitem_merge a b) = order_number a := rfl

theorem replace_group_filter_self (onum : String) (m : Row)
    (hm : (order_number m == onum) = true) (rows : List Row)
    (hany : ∃ r ∈ rows, (order_number r == onum) = true) :
    (replace_group onum m rows).filter (fun r => order_number r == onum) = [m] := by
  induction rows with
  | nil => simp at hany
  | cons r rs ih =>
    by_cases hr : (order_number r == onum) = true
    · simp only [replace_group, if_pos hr]
      rw [List.filter_cons, if_pos hm, List.filter_filter]
      have : (rs.filter fun a => (order_number a == onum) && !(order_number a == onum)) = [] := by
        apply List.filter_eq_nil_iff.mpr
        intro a _
        simp
      rw [this]
    · simp only [replace_group, if_neg hr]
      rw [List.filter_cons, if_neg hr]
      apply ih
      rcases hany with ⟨w, hw, hwp⟩
      rcases List.mem_cons.mp hw with rfl | hw
      · exact absurd hwp hr
      · exact ⟨w, hw, hwp⟩

theorem replace_group_filter_other (onum s : String) (hs : s ≠ onum) (m : Row)
    (hm : (order_number m == onum) = true) (rows : List Row) :
    (replace_group onum m rows).filter (fun r => order_number r == s) =
      rows.filter (fun r => order_number r == s) := by
  have key : ∀ x : Row, (order_number x == onum) = true → (order_number x == s) = false := by
    intro x hx
    have hxo : order_number x = onum := by simpa using hx
    simp [hxo, beq_eq_false_iff_ne]
    exact fun h => hs h.symm
  induction rows with
  | nil => rfl
  | cons r rs ih =>
    by_cases hr : (order_number r == onum) = true
    · simp only [replace_group, if_pos hr]
      rw [List.filter_cons, if_neg (by simp [key m hm]),
        List.filter_cons, if_neg (by simp [key r hr]), List.filter_filter]
      apply List.filter_congr
      intro a _
      by_cases ha : (order_number a == onum) = true
      · simp [key a ha, ha]
      · simp only [Bool.not_eq_true] at ha
        simp [ha]
    · simp only [replace_group, if_neg hr]
      rw [List.filter_cons, List.filter_cons, ih]

theorem mem_replace_group (onum : String) (m x : Row) (rows : List Row)
    (h : x ∈ replace_group onum m rows) : x = m ∨ x ∈ rows := by
  induction rows with
  | nil => simp [replace_group] at h
  | cons r rs ih =>
    by_cases hr : (order_number r == onum) = true
    · simp only [replace_group, if_pos hr] at h
      rcases List.mem_cons.mp h with rfl | h
      · exact Or.inl rfl
      · exact Or.inr (List.mem_cons_of_mem _ (List.mem_of_mem_filter h))
    · simp only [replace_group, if_neg hr] at h
      rcases List.mem_cons.mp h with rfl | h
      · exact Or.inr (List.mem_cons_self _ _)
      · rcases ih h with h | h
        · exact Or.inl h
        · exact Or.inr (List.mem_cons_of_mem _ h)

theorem merge_step_filter_other (s onum : String) (hs : s ≠ onum) (rows : List Row) :
    (merge_step rows onum).filter (fun r => order_number r == s) =
      rows.filter (fun r => order_number r == s) := by
  unfold merge_step
  split
  · rfl
  · rfl
  · rename_i r0 r1 rest heq
    apply replace_group_filter_other onum s hs
    have hr0 : r0 ∈ rows.filter (fun r => order_number r == onum) := by
      rw [heq]
      exact List.mem_cons_self _ _
    have := (List.mem_filter.mp hr0).2
    simpa [order_number_lineitem_merge] using this

theorem merge_step_filter_self (onum : String) (rows : List Row) (r0 r1 : Row)
    (rest : List Row)
    (hg : rows.filter (fun r => order_number r == onum) = r0 :: r1 :: rest) :
    (merge_step rows onum).filter (fun r => order_number r == onum) =
      [lineitem_merge r0 ((r1 :: rest).getLast (List.cons_ne_nil _ _))] := by
  unfold merge_step
  split
  · rename_i heq
    rw [heq] at hg
    cases hg
  · rename_i x heq
    rw [heq] at hg
    cases hg
  · rename_i a0 a1 arest heq
    have h := hg.symm.trans heq
    obtain ⟨rfl, h1⟩ := List.cons.inj h
    obtain ⟨rfl, rfl⟩ := List.cons.inj h1
    have hr0 : r0 ∈ rows.filter (fun r => order_number r == onum) := by
      rw [heq]
      exact List.mem_cons_self _ _
    have hp0 := (List.mem_filter.mp hr0).2
    apply replace_group_filter_self
    · simpa [order_number_lineitem_merge] using hp0
    · exact ⟨r0, (List.mem_filter.mp hr0).1, hp0⟩

theorem foldl_merge_filter_other (s : String) (l : List String)
    (hl : ∀ t ∈ l, t ≠ s) (rows : List Row) :
    (l.foldl merge_step rows).filter (fun r => order_number r == s) =
      rows.filter (fun r => order_number r == s) := by
  induction l generalizing rows with
  | nil => rfl
  | cons t l ih =>
    rw [List.foldl_cons, ih (fun u hu => hl u (List.mem_cons_of_mem _ hu)),
      merge_step_filter_other s t (Ne.symm (hl t (List.mem_cons_self _ _)))]

theorem mem_dup_order_numbers_of_two_le (rows : List Row) (s : String)
    (h2 : 2 ≤ rows.countP (fun r => order_number r == s)) :
    s ∈ dup_order_numbers rows := by
  have hpos : 0 < (rows.filter (fun r => order_number r == s)).length := by
    rw [← List.countP_eq_length_filter]
    omega
  obtain ⟨r, hrf⟩ := List.exists_mem_of_ne_nil _ (List.ne_nil_of_length_pos hpos)
  have hr := List.mem_filter.mp hrf
  have hrs : order_number r = s := by simpa using hr.2
  unfold dup_order_numbers
  rw [mem_uniqueFirst]
  refine List.mem_map.mpr ⟨r, ?_, hrs⟩
  refine List.mem_filter.mpr ⟨hr.1, ?_⟩
  rw [hrs]
  simpa using h2

theorem not_mem_dup_order_numbers (rows : List Row) (s : String)
    (h1 : rows.countP (fun r => order_number r == s) ≤ 1) :
    s ∉ dup_order_numbers rows := by
  intro hmem
  unfold dup_order_numbers at hmem
  rw [mem_uniqueFirst] at hmem
  obtain ⟨r, hrf, hrs⟩ := List.mem_map.mp hmem
  have h := (List.mem_filter.mp hrf).2
  rw [hrs] at h
  simp only [decide_eq_true_eq] at h
  omega

/-- The merge loop leaves the group of an unduplicated order number
untouched. -/
theorem merged_filter_of_small (rows : List Row) (s : String)
    (h1 : rows.countP (fun r => order_number r == s) ≤ 1) :
    ((dup_order_numbers rows).foldl merge_step rows).filter
        (fun r => order_number r == s) =
      rows.filter (fun r => order_number r == s) := by
  apply foldl_merge_filter_other
  intro t ht h
  exact not_mem_dup_order_numbers rows s h1 (h ▸ ht)

/-- The merge loop collapses the group of a duplicated order number to
the single merged representative: the group's first row carrying the
last row's line-item data. -/
theorem merged_filter_of_group (rows : List Row) (s : String) (r0 r1 : Row)
    (rest : List Row)
    (hg : rows.filter (fun r => order_number r == s) = r0 :: r1 :: rest) :
    ((dup_order_numbers rows).foldl merge_step rows).filter
        (fun r => order_number r == s) =
      [lineitem_merge r0 ((r1 :: rest).getLast (List.cons_ne_nil _ _))] := by
  have h2 : 2 ≤ rows.countP (fun r => order_number r == s) := by
    rw [List.countP_eq_length_filter, hg]
    simp
  obtain ⟨l1, l2, hsplit⟩ := List.mem_iff_append.mp
    (mem_dup_order_numbers_of_two_le rows s h2)
  have hnd := nodup_uniqueFirst
    ((rows.filter (fun r =>
        decide (2 ≤ rows.countP (fun q => order_number q == order_number r)))).map
      order_number)
  rw [show uniqueFirst ((rows.filter (fun r =>
        decide (2 ≤ rows.countP (fun q => order_number q == order_number r)))).map
      order_number) = dup_order_numbers rows from rfl, hsplit] at hnd
  obtain ⟨-, hnd2, hdisj⟩ := List.nodup_append.mp hnd
  have hs1 : ∀ t ∈ l1, t ≠ s := fun t ht h =>
    hdisj ht (h ▸ List.mem_cons_self _ _)
  have hs2 : ∀ t ∈ l2, t ≠ s := fun t ht h => by
    rw [h] at ht
    exact (List.nodup_cons.mp hnd2).1 ht
  rw [hsplit, List.foldl_append, List.foldl_cons,
    foldl_merge_filter_other s l2 hs2]
  apply merge_step_filter_self
  rw [foldl_merge_filter_other s l1 hs1]
  exact hg

/-- The retained rows of a duplicated group after the financial-status
filter: the merged representative when the group's first row has a
financial status, nothing otherwise. -/
theorem clean_filter_of_group (rows : List Row) (s : String) (r0 r1 : Row)
    (rest : List Row)
    (hg : rows.filter (fun r => order_number r == s) = r0 :: r1 :: rest) :
    (clean_shopify_data rows).filter (fun r => order_number r == s) =
      if r0.financialStatus.isSome then
        [lineitem_merge r0 ((r1 :: rest).getLast (List.cons_ne_nil _ _))]
      else [] := by
  unfold clean_shopify_data
  rw [List.filter_filter]
  have : (((dup_order_numbers rows).foldl merge_step rows).filter
      (fun a => (order_number a == s) && a.financialStatus.isSome)) =
      (((dup_order_numbers rows).foldl merge_step rows).filter
        (fun r => order_number r == s)).filter (fun a => a.financialStatus.isSome) := by
    rw [List.filter_filter]
    apply List.filter_congr
    intro a _
    rw [Bool.and_comm]
  rw [this, merged_filter_of_group rows s r0 r1 rest hg]
  by_cases hfs : r0.financialStatus.isSome
  · rw [if_pos hfs]
    apply List.filter_eq_self.mpr
    intro a ha
    rw [List.mem_singleton.mp ha]
    simpa [lineitem_merge] using hfs
  · rw [if_neg hfs]
    apply List.filter_eq_nil_iff.mpr
    intro a ha
    rw [List.mem_singleton.mp ha]
    simpa [lineitem_merge] using hfs

/-- A filter-of-filter form of `clean_shopify_data` restricted to one
order number. -/
theorem clean_filter_eq (rows : List Row) (s : String) :
    (clean_shopify_data rows).filter (fun r => order_number r == s) =
      (((dup_order_numbers rows).foldl merge_step rows).filter
          (fun r => order_number r == s)).filter
        (fun r => r.financialStatus.isSome) := by
  unfold clean_shopify_data
  rw [List.filter_filter, List.filter_filter]
  apply List.filter_congr
  intro a _
  rw [Bool.and_comm]

/-- The cleaned table holds at most one row per order number. -/
theorem clean_count_le_one (rows : List Row) (s : String) :
    (clean_shopify_data rows).countP (fun r => order_number r == s) ≤ 1 := by
  rw [List.countP_eq_length_filter, clean_filter_eq]
  rcases hfe : rows.filter (fun r => order_number r == s) with _ | ⟨r0, _ | ⟨r1, rest⟩⟩
  · rw [merged_filter_of_small rows s
      (by rw [List.countP_eq_length_filter, hfe]; simp), hfe]
    simp
  · rw [merged_filter_of_small rows s
      (by rw [List.countP_eq_length_filter, hfe]; simp), hfe]
    exact List.length_filter_le _ _
  · rw [merged_filter_of_group rows s r0 r1 rest hfe]
    exact List.length_filter_le _ _

/-- Example rows.  `row_unpaid` is an amended order row with an empty
`Financial Status`; `row_paid` is a paid row of the same order number. -/
def blank_row : Row :=
  { name := "", financialStatus := none, shippingCountry := none,
    shippingName := none, shippingAddress1 := none, shippingAddress2 := none,
    shippingCity := none, shippingProvince := none, shippingProvinceName := none,
    shippingZip := none, shippingPhone := none, email := none,
    lineitemQuantity := none, lineitemName := none, lineitemPrice := none,
    lineitemDiscount := none, others := [] }

/-- A row of order `#1` whose `Financial Status` cell is empty. -/
def row_unpaid : Row :=
  { blank_row with
    name := "#1", lineitemQuantity := some "1",
    lineitemName := some "Cotton Shrug 150-160cm", lineitemPrice := some "20" }

/-- A paid row of the same order number `1`. -/
def row_paid : Row :=
  { blank_row with
    name := "1", financialStatus := some "paid", shippingCountry := some "FR",
    lineitemQuantity := some "2", lineitemName := some "Tencel Bundle 170-180",
    lineitemPrice := some "35" }

/-- A duplicated group whose first row has an empty financial status. -/
def rows_unpaid_first : List Row := [row_unpaid, row_paid]

/-- A duplicated group whose first row is paid. -/
def rows_paid_first : List Row := [row_paid, row_unpaid]

/-- **C1** counterexample: in `rows_unpaid_first` the order number `1`
appears on two rows, yet the cleaned output holds no row of that order
number at all (the merged representative inherits the first row's empty
`Financial Status` and is dropped by the `notna` filter), not exactly
one. -/
theorem clean_one_row_per_duplicated_order_cx :
    2 ≤ rows_unpaid_first.countP (fun r => order_number r == "1") ∧
    (clean_shopify_data rows_unpaid_first).countP
        (fun r => order_number r == "1") ≠ 1 := by
  decide

/-- **C1** (amended): for an order number appearing on at least two
input rows, `clean_shopify_data` yields exactly one row of that order
number when the group's first row has a non-empty `Financial Status`,
and zero rows when it is empty. -/
theorem clean_one_row_per_duplicated_order (rows : List Row) (s : String)
    (r0 r1 : Row) (rest : List Row)
    (hg : rows.filter (fun r => order_number r == s) = r0 :: r1 :: rest) :
    (clean_shopify_data rows).countP (fun r => order_number r == s) =
      if r0.financialStatus.isSome then 1 else 0 := by
  rw [List.countP_eq_length_filter, clean_filter_of_group rows s r0 r1 rest hg]
  by_cases hfs : r0.financialStatus.isSome
  · rw [if_pos hfs, if_pos hfs]
    rfl
  · rw [if_neg hfs, if_neg hfs]
    rfl

/-- **C1** witness: the amended statement at the concrete duplicated
group whose first row is paid. -/
theorem clean_one_row_per_duplicated_order_witness :
    (clean_shopify_data rows_paid_first).countP (fun r => order_number r == "1") =
      if row_paid.financialStatus.isSome then 1 else 0 :=
  clean_one_row_per_duplicated_order rows_paid_first "1" row_paid row_unpaid []
    (by decide)

/-- **C4** counterexample: for the two-row group of order `1` whose
first row has an empty `Financial Status`, `clean_shopify_data` keeps no
row of the group at all, so the kept row is not the group's first row
with the last row's line-item data. -/
theorem clean_keeps_merged_first_row_cx :
    2 ≤ rows_unpaid_first.countP (fun r => order_number r == "1") ∧
    (clean_shopify_data rows_unpaid_first).filter
        (fun r => order_number r == "1") ≠
      [lineitem_merge row_unpaid row_paid] := by
  decide

/-- **C4** (amended): for a group of two or more rows sharing an order
number whose first row has a non-empty `Financial Status`, the single
row `clean_shopify_data` keeps for that order number is the group's
first row with its line-item quantity, name, price (and discount)
fields replaced by the values from the group's last row. -/
theorem clean_keeps_merged_first_row (rows : List Row) (s : String)
    (r0 r1 : Row) (rest : List Row)
    (hg : rows.filter (fun r => order_number r == s) = r0 :: r1 :: rest)
    (hfs : r0.financialStatus.isSome = true) :
    (clean_shopify_data rows).filter (fun r => order_number r == s) =
      [lineitem_merge r0 ((r1 :: rest).getLast (List.cons_ne_nil _ _))] := by
  rw [clean_filter_of_group rows s r0 r1 rest hg, if_pos hfs]

/-- **C4** witness: the amended statement at the concrete paid-first
group. -/
theorem clean_keeps_merged_first_row_witness :
    (clean_shopify_data rows_paid_first).filter (fun r => order_number r == "1") =
      [lineitem_merge row_paid row_unpaid] :=
  clean_keeps_merged_first_row rows_paid_first "1" row_paid row_unpaid []
    (by decide) (by decide)

/-- **C9**: `clean_shopify_data` is idempotent — applied to its own
output it returns that output unchanged. -/
theorem clean_shopify_data_idempotent (rows : List Row) :
    clean_shopify_data (clean_shopify_data rows) = clean_shopify_data rows := by
  have hfs : ∀ r ∈ clean_shopify_data rows, r.financialStatus.isSome = true := by
    intro r hr
    unfold clean_shopify_data at hr
    exact (List.mem_filter.mp hr).2
  have hdup : dup_order_numbers (clean_shopify_data rows) = [] := by
    unfold dup_order_numbers
    have hnil : (clean_shopify_data rows).filter
        (fun r => decide (2 ≤ (clean_shopify_data rows).countP
          (fun q => order_number q == order_number r))) = [] := by
      apply List.filter_eq_nil_iff.mpr
      intro r _
      simp only [decide_eq_true_eq]
      have := clean_count_le_one rows (order_number r)
      omega
    rw [hnil]
    rfl
  calc clean_shopify_data (clean_shopify_data rows)
      = ((dup_order_numbers (clean_shopify_data rows)).foldl merge_step
          (clean_shopify_data rows)).filter (fun r => r.financialStatus.isSome) := rfl
    _ = (clean_shopify_data rows).filter (fun r => r.financialStatus.isSome) := by
        rw [hdup]
        rfl
    _ = clean_shopify_data rows := List.filter_eq_self.mpr hfs

/-- **C10**: every row the cleaning keeps agrees with an input row on
every column other than the four line-item columns, and when that input
row's order number appears only once in the input the row is kept
entirely unchanged. -/
theorem clean_preserves_non_lineitem_columns (rows : List Row) (r' : Row)
    (h : r' ∈ clean_shopify_data rows) :
    ∃ r ∈ rows, non_lineitem_eq r' r = true ∧
      (rows.countP (fun q => order_number q == order_number r) = 1 → r' = r) := by
  have hmem : r' ∈ (dup_order_numbers rows).foldl merge_step rows := by
    unfold clean_shopify_data at h
    exact List.mem_of_mem_filter h
  have hmf : r' ∈ ((dup_order_numbers rows).foldl merge_step rows).filter
      (fun r => order_number r == order_number r') :=
    List.mem_filter.mpr ⟨hmem, by simp⟩
  rcases hfe : rows.filter (fun r => order_number r == order_number r') with
    _ | ⟨r0, _ | ⟨r1, rest⟩⟩
  · rw [merged_filter_of_small rows _
      (by rw [List.countP_eq_length_filter, hfe]; simp), hfe] at hmf
    exact absurd hmf (List.not_mem_nil _)
  · rw [merged_filter_of_small rows _
      (by rw [List.countP_eq_length_filter, hfe]; simp), hfe] at hmf
    obtain rfl := List.mem_singleton.mp hmf
    have hr0 : r' ∈ rows.filter (fun r => order_number r == order_number r') := by
      rw [hfe]
      exact List.mem_cons_self _ _
    refine ⟨r', (List.mem_filter.mp hr0).1, ?_, fun _ => rfl⟩
    simp [non_lineitem_eq]
  · rw [merged_filter_of_group rows _ r0 r1 rest hfe] at hmf
    have hr' := List.mem_singleton.mp hmf
    have hr0f : r0 ∈ rows.filter (fun r => order_number r == order_number r') := by
      rw [hfe]
      exact List.mem_cons_self _ _
    have hord : order_number r0 = order_number r' := by
      simpa using (List.mem_filter.mp hr0f).2
    refine ⟨r0, (List.mem_filter.mp hr0f).1, ?_, ?_⟩
    · rw [hr']
      simp [non_lineitem_eq, lineitem_merge]
    · intro hcount
      rw [hord, List.countP_eq_length_filter, hfe] at hcount
      simp at hcount

/-- **C10** witness: the statement at a concrete one-row table. -/
theorem clean_preserves_non_lineitem_columns_witness :
    row_paid ∈ clean_shopify_data [row_paid] ∧
    ∃ r ∈ [row_paid], non_lineitem_eq row_paid r = true ∧
      ([row_paid].countP (fun q => order_number q == order_number r) = 1 →
        row_paid = r) :=
  ⟨by decide, clean_preserves_non_lineitem_columns [row_paid] row_paid (by decide)⟩

/-- **C3**: an input row with an empty `Financial Status` appears in
none of the four buckets produced by cleaning followed by
`filter_international_orders`. -/
theorem empty_financial_status_row_in_no_bucket (rows : List Row) (r : Row)
    (_hr : r ∈ rows) (hfs : r.financialStatus = none) :
    r ∉ (filter_international_orders (clean_shopify_data rows)).1 ∧
    r ∉ (filter_international_orders (clean_shopify_data rows)).2.1 ∧
    r ∉ (filter_international_orders (clean_shopify_data rows)).2.2.1 ∧
    r ∉ (filter_international_orders (clean_shopify_data rows)).2.2.2 := by
  have key : r ∉ clean_shopify_data rows := by
    intro hmem
    unfold clean_shopify_data at hmem
    have := (List.mem_filter.mp hmem).2
    rw [hfs] at this
    simp at this
  exact ⟨fun hmem => key (List.mem_of_mem_filter hmem),
    fun hmem => key (List.mem_of_mem_filter hmem),
    fun hmem => key (List.mem_of_mem_filter hmem),
    fun hmem => key (List.mem_of_mem_filter hmem)⟩

/-- **C3** witness: the statement at the concrete unpaid row. -/
theorem empty_financial_status_row_in_no_bucket_witness :
    row_unpaid ∉ (filter_international_orders
      (clean_shopify_data [row_unpaid])).1 ∧
    row_unpaid ∉ (filter_international_orders
      (clean_shopify_data [row_unpaid])).2.1 ∧
    row_unpaid ∉ (filter_international_orders
      (clean_shopify_data [row_unpaid])).2.2.1 ∧
    row_unpaid ∉ (filter_international_orders
      (clean_shopify_data [row_unpaid])).2.2.2 :=
  empty_financial_status_row_in_no_bucket [row_unpaid] row_unpaid (by decide)
    (by decide)

/-! ### The export CSVs -/

theorem write_intl_csv_ok_cols (data : List (List (String × String))) (c : Csv)
    (h : write_intl_csv data = Except.ok (some c)) :
    c.1.length = 42 ∧ ∀ row ∈ c.2, row.length = 42 := by
  unfold write_intl_csv at h
  split at h
  · simp at h
  · split at h
    · cases h
    · rename_i h0 h42
      have hc : mk_csv data = c := by
        injection h with h1
        injection h1
      subst hc
      have hlen : (dfColumns data).length = 42 := not_ne_iff.mp h42
      refine ⟨hlen, ?_⟩
      intro row hrow
      simp only [mk_csv, List.mem_map] at hrow
      obtain ⟨d, -, rfl⟩ := hrow
      simpa using hlen

theorem write_us_csv_ok_cols (data : List (List (String × String))) (c : Csv)
    (h : write_us_csv data = Except.ok (some c)) :
    c.1.length = 55 ∧ ∀ row ∈ c.2, row.length = 55 := by
  unfold write_us_csv at h
  split at h
  · simp at h
  · split at h
    · cases h
    · rename_i h0 h55
      have hc : mk_csv data = c := by
        injection h with h1
        injection h1
      subst hc
      have hlen : (dfColumns data).length = 55 := not_ne_iff.mp h55
      refine ⟨hlen, ?_⟩
      intro row hrow
      simp only [mk_csv, List.mem_map] at hrow
      obtain ⟨d, -, rfl⟩ := hrow
      simpa using hlen

/-- **C2**: every CSV a run of `convert_shopify_to_singpost` produces
has exactly the template's column count — 42 columns (header and every
data row) for the international file, 55 for the US file — whatever the
bucket sizes; an empty bucket yields no CSV, so the condition holds
vacuously there. -/
theorem produced_csvs_match_templates (df : List Row) (env : ConvertEnv) :
    (∀ c : Csv, intl_csv_of df env = some c →
      c.1.length = 42 ∧ ∀ row ∈ c.2, row.length = 42) ∧
    (∀ c : Csv, us_csv_of df env = some c →
      c.1.length = 55 ∧ ∀ row ∈ c.2, row.length = 55) := by
  constructor
  · intro c hc
    unfold intl_csv_of convert_shopify_to_singpost at hc
    split at hc
    case h_2 => exact Option.noConfusion hc
    rename_i p heq
    dsimp only at heq
    split at heq
    · exact absurd heq (by simp)
    · split at heq
      · exact absurd heq (by simp)
      · rename_i intlCsv heqI
        split at heq
        · exact absurd heq (by simp)
        · rename_i usCsv heqU
          simp only at heq
          injection heq with h2
          subst h2
          simp only at hc
          rw [hc] at heqI
          exact write_intl_csv_ok_cols _ _ heqI
  · intro c hc
    unfold us_csv_of convert_shopify_to_singpost at hc
    split at hc
    case h_2 => exact Option.noConfusion hc
    rename_i p heq
    dsimp only at heq
    split at heq
    · exact absurd heq (by simp)
    · split at heq
      · exact absurd heq (by simp)
      · rename_i intlCsv heqI
        split at heq
        · exact absurd heq (by simp)
        · rename_i usCsv heqU
          simp only at heq
          injection heq with h2
          subst h2
          simp only at hc
          rw [hc] at heqU
          exact write_us_csv_ok_cols _ _ heqU

/-- A paid international (French) order row. -/
def row_intl : Row :=
  { blank_row with
    name := "#2", financialStatus := some "paid", shippingCountry := some "FR",
    shippingName := some "Alice Martin", shippingAddress1 := some "1 Rue de la Paix",
    shippingCity := some "Paris", shippingZip := some "75001",
    lineitemQuantity := some "1", lineitemName := some "Cotton Shrug 150-160cm",
    lineitemPrice := some "20" }

/-- A paid US order row. -/
def row_us : Row :=
  { blank_row with
    name := "#3", financialStatus := some "paid", shippingCountry := some "US",
    shippingName := some "Bob Lee", shippingAddress1 := some "5 Main St",
    shippingCity := some "Austin", shippingProvince := some "TX",
    shippingZip := some "73301", email := some "bob@example.com",
    lineitemQuantity := some "1", lineitemName := some "Tencel Bundle 170-180",
    lineitemPrice := some "35" }

/-- An environment in which the Shopify price fetch succeeds and the
Google Slides credentials and template are available. -/
def env_full : ConvertEnv :=
  { usFetchOk := true, usdPrices := fun _ => "25.0",
    credentialsAvailable := true, templateId := some "template-id" }

/-- **C2** witness: a concrete run with one international and one US
order produces both CSVs with the template column counts. -/
theorem produced_csvs_match_templates_witness :
    intl_csv_of [row_intl, row_us] env_full =
      some ((intl_csv_of [row_intl, row_us] env_full).getD ([], [])) ∧
    us_csv_of [row_intl, row_us] env_full =
      some ((us_csv_of [row_intl, row_us] env_full).getD ([], [])) ∧
    ((intl_csv_of [row_intl, row_us] env_full).getD ([], [])).1.length = 42 ∧
    ((us_csv_of [row_intl, row_us] env_full).getD ([], [])).1.length = 55 :=
  ⟨by rfl, by rfl,
    ((produced_csvs_match_templates [row_intl, row_us] env_full).1 _ (by rfl)).1,
    ((produced_csvs_match_templates [row_intl, row_us] env_full).2 _ (by rfl)).1⟩

/-- **C6**: when the assembled rows of a nonempty bucket do not have
exactly the template's column count (42 international, 55 US), the
validation raises the `ValueError` — the stage returns the error and no
CSV value, so nothing is written. -/
theorem column_count_mismatch_aborts_write (data : List (List (String × String)))
    (hne : data ≠ []) :
    ((dfColumns data).length ≠ 42 →
      write_intl_csv data = Except.error (intl_error_msg (dfColumns data).length)) ∧
    ((dfColumns data).length ≠ 55 →
      write_us_csv data = Except.error (us_error_msg (dfColumns data).length)) := by
  constructor
  · intro h
    unfold write_intl_csv
    rw [if_neg hne, if_pos h]
  · intro h
    unfold write_us_csv
    rw [if_neg hne, if_pos h]

/-- **C6** witness: a one-column row dictionary makes both validations
fail with the template error messages and no CSV. -/
theorem column_count_mismatch_aborts_write_witness :
    write_intl_csv [[("A", "x")]] = Except.error (intl_error_msg 1) ∧
    write_us_csv [[("A", "x")]] = Except.error (us_error_msg 1) :=
  ⟨(column_count_mismatch_aborts_write [[("A", "x")]] (by decide)).1 (by decide),
    (column_count_mismatch_aborts_write [[("A", "x")]] (by decide)).2 (by decide)⟩

/-- **C8**: when the Singapore bucket is empty after cleaning and
filtering, `create_shipping_slides` is never invoked, whatever the
credentials or template environment. -/
theorem no_slides_call_without_sg_orders (df : List Row) (env : ConvertEnv)
    (h : (filter_international_orders (clean_shopify_data df)).2.1 = []) :
    (convert_shopify_to_singpost df env).slidesCalled = false := by
  unfold convert_shopify_to_singpost
  simp only [h, List.isEmpty_nil, Bool.not_true, Bool.false_and]
  split
  · rfl
  · split
    · rfl
    · split
      · rfl
      · rfl

/-- **C8** witness: a run over a table with only an international order
(and slides credentials present) performs no slides call. -/
theorem no_slides_call_without_sg_orders_witness :
    (filter_international_orders (clean_shopify_data [row_intl])).2.1 = [] ∧
    (convert_shopify_to_singpost [row_intl] env_full).slidesCalled = false :=
  ⟨by rfl, no_slides_call_without_sg_orders [row_intl] env_full (by rfl)⟩

/-! ### Product classification -/

/-- **C5** counterexample: the line-item name `Cotton 140-150-160`
contains both `COTTON` and `150-160` (case-insensitively), yet the size
check for the earlier `140-150` band matches first, so the returned
size `XS (140-150cm)` does not contain `150-160cm`. -/
theorem parse_cotton_150_160_cx :
    containsSub (py_upper "Cotton 140-150-160") "COTTON" = true ∧
    containsSub (py_upper "Cotton 140-150-160") "150-160" = true ∧
    ¬((parse_product_details "Cotton 140-150-160").2.1 = "Cotton" ∧
      containsSub (parse_product_details "Cotton 140-150-160").2.2 "150-160cm" = true) := by
  decide

/-- **C5** (amended): for every line-item name containing `COTTON` and
`150-160` in any letter case and containing none of the earlier size
bands `100-110`, `110-120`, `120-130`, `130-140`, `140-150`,
`parse_product_details` returns material `Cotton` and a size containing
`150-160cm`. -/
theorem parse_cotton_150_160 (name : String)
    (hc : containsSub (py_upper name) "COTTON" = true)
    (hs : containsSub (py_upper name) "150-160" = true)
    (h1 : containsSub (py_upper name) "100-110" = false)
    (h2 : containsSub (py_upper name) "110-120" = false)
    (h3 : containsSub (py_upper name) "120-130" = false)
    (h4 : containsSub (py_upper name) "130-140" = false)
    (h5 : containsSub (py_upper name) "140-150" = false) :
    (parse_product_details name).2.1 = "Cotton" ∧
    containsSub (parse_product_details name).2.2 "150-160cm" = true := by
  unfold parse_product_details
  simp only [hc, hs, h1, h2, h3, h4, h5, if_true, if_false, Bool.false_eq_true,
    ite_false, ite_true]
  exact ⟨by trivial, by decide⟩

/-- **C5** witness: the amended statement at a concrete recognised
name. -/
theorem parse_cotton_150_160_witness :
    (parse_product_details "Cotton Shrug 150-160cm").2.1 = "Cotton" ∧
    containsSub (parse_product_details "Cotton Shrug 150-160cm").2.2 "150-160cm" = true :=
  parse_cotton_150_160 "Cotton Shrug 150-160cm" (by decide) (by decide) (by decide)
    (by decide) (by decide) (by decide) (by decide)

/-! ### The CSV round trip -/

theorem read_cell_chars_escape (c : String) :
    read_cell_chars (escape_bslash c.data) = read_cell (bslash_doubled c) := rfl

theorem escape_bslash_of_no_bslash (d : List Char) (h : ∀ ch ∈ d, ch ≠ bslash) :
    escape_bslash d = d := by
  induction d with
  | nil => rfl
  | cons c cs ih =>
    rw [show escape_bslash (c :: cs) = c :: escape_bslash cs from by
      simp [escape_bslash, h c (List.mem_cons_self _ _)]]
    rw [ih (fun x hx => h x (List.mem_cons_of_mem _ hx))]

theorem bslash_doubled_of_no_bslash (s : String)
    (h : ∀ ch ∈ s.data, ch ≠ bslash) : bslash_doubled s = s := by
  cases s with
  | mk d =>
    show (⟨escape_bslash d⟩ : String) = ⟨d⟩
    rw [escape_bslash_of_no_bslash d h]

/-- Reading back a written quoted field undoes the quote doubling but
not the escapechar doubling: the content comes back as
`escape_bslash s`. -/
theorem read_quoted_escape (s : List Char) (rest : List Char)
    (hrest : ∀ c cs, rest = c :: cs → c ≠ dquote) (acc : List Char) :
    read_quoted (escape_cell s ++ dquote :: rest) acc =
      some (acc.reverse ++ escape_bslash s, rest) := by
  induction s generalizing acc with
  | nil =>
    rcases rest with _ | ⟨c, cs⟩
    · simp [escape_cell, escape_bslash, read_quoted]
    · simp [escape_cell, escape_bslash, read_quoted, hrest c cs rfl]
  | cons ch cs' ih =>
    by_cases hch : ch = dquote
    · subst hch
      rw [show escape_cell (dquote :: cs') = dquote :: dquote :: escape_cell cs'
          from by simp [escape_cell],
        List.cons_append, List.cons_append,
        show read_quoted (dquote :: dquote :: (escape_cell cs' ++ dquote :: rest)) acc =
            read_quoted (escape_cell cs' ++ dquote :: rest) (dquote :: acc)
          from by rw [read_quoted.eq_def]; simp,
        ih]
      simp [escape_bslash, show ¬(dquote = bslash) from by decide]
    · by_cases hbs : ch = bslash
      · subst hbs
        rw [show escape_cell (bslash :: cs') = bslash :: bslash :: escape_cell cs'
            from by simp [escape_cell, show ¬(bslash = dquote) from by decide],
          List.cons_append, List.cons_append,
          show read_quoted (bslash :: bslash :: (escape_cell cs' ++ dquote :: rest)) acc =
              read_quoted (escape_cell cs' ++ dquote :: rest) (bslash :: bslash :: acc)
            from by
              rw [read_quoted.eq_def]
              simp only [if_neg (show ¬(bslash = dquote) from by decide)]
              rw [read_quoted.eq_def]
              simp only [if_neg (show ¬(bslash = dquote) from by decide)],
          ih]
        simp [escape_bslash]
      · rw [show escape_cell (ch :: cs') = ch :: escape_cell cs'
            from by simp [escape_cell, hch, hbs],
          List.cons_append,
          show read_quoted (ch :: (escape_cell cs' ++ dquote :: rest)) acc =
              read_quoted (escape_cell cs' ++ dquote :: rest) (ch :: acc)
            from by rw [read_quoted.eq_def]; simp [hch],
          ih]
        simp [escape_bslash, hbs]

theorem two_le_write_cell_length (c : String) : 2 ≤ (write_cell c).length := by
  unfold write_cell
  simp

theorem write_row_length_ge (cells : List String) :
    cells.length ≤ (write_row cells).length := by
  match cells with
  | [] => simp [write_row]
  | [c] =>
    have := two_le_write_cell_length c
    simp only [write_row, List.length_singleton]
    omega
  | c :: c2 :: cs =>
    have h1 := two_le_write_cell_length c
    have h2 := write_row_length_ge (c2 :: cs)
    simp only [write_row, List.length_append, List.length_cons]
    simp only [List.length_cons] at h2
    omega

theorem write_csv_length_ge (rows : List (List String)) :
    rows.length ≤ (write_csv rows).length := by
  induction rows with
  | nil => simp [write_csv]
  | cons r rs ih =>
    simp only [write_csv, List.length_append, List.length_cons]
    omega

/-- One unfolding step of `parse_cells` on a quoted-field opener. -/
theorem parse_cells_succ_cons (f : Nat) (tail : List Char) :
    parse_cells (f + 1) (dquote :: tail) =
      match read_quoted tail [] with
      | none => none
      | some (cell, rest) =>
        match rest with
        | [] => some ([read_cell_chars cell], [])
        | r :: rest1 =>
          if r = ',' then
            match parse_cells f rest1 with
            | none => none
            | some (cells, rest2) => some (read_cell_chars cell :: cells, rest2)
          else if r = '\n' then some ([read_cell_chars cell], rest1)
          else none := by
  simp [parse_cells]

theorem parse_cells_write_row (cells : List String) (hne : cells ≠ [])
    (rest : List Char) (fuel : Nat) (hfuel : cells.length ≤ fuel) :
    parse_cells fuel (write_row cells ++ '\n' :: rest) =
      some (cells.map (fun s => read_cell (bslash_doubled s)), rest) := by
  induction cells generalizing fuel rest with
  | nil => exact absurd rfl hne
  | cons c cs ih =>
    rcases fuel with _ | f
    · simp at hfuel
    rcases cs with _ | ⟨c2, cs'⟩
    · show parse_cells (f + 1) (write_cell c ++ '\n' :: rest) = _
      rw [show write_cell c ++ '\n' :: rest =
          dquote :: (escape_cell c.data ++ dquote :: '\n' :: rest) from by
        simp [write_cell]]
      rw [parse_cells_succ_cons, read_quoted_escape c.data ('\n' :: rest)
        (by intro x xs hx; cases hx; decide) []]
      simp only [List.reverse_nil, List.nil_append]
      simp [read_cell_chars_escape]
    · show parse_cells (f + 1)
        ((write_cell c ++ ',' :: write_row (c2 :: cs')) ++ '\n' :: rest) = _
      rw [show (write_cell c ++ ',' :: write_row (c2 :: cs')) ++ '\n' :: rest =
          dquote :: (escape_cell c.data ++
            dquote :: ',' :: (write_row (c2 :: cs') ++ '\n' :: rest)) from by
        simp [write_cell]]
      rw [parse_cells_succ_cons, read_quoted_escape c.data
        (',' :: (write_row (c2 :: cs') ++ '\n' :: rest))
        (by intro x xs hx; cases hx; decide) []]
      simp only [List.reverse_nil, List.nil_append]
      have hih := ih (by simp) rest f (by simpa using Nat.le_of_succ_le_succ hfuel)
      simp only [if_pos rfl, hih, read_cell_chars_escape]
      simp

theorem parse_rows_write_csv (rows : List (List String))
    (hne : ∀ r ∈ rows, r ≠ []) (fuel : Nat) (hfuel : rows.length ≤ fuel) :
    parse_rows fuel (write_csv rows) =
      some (rows.map (List.map (fun s => read_cell (bslash_doubled s)))) := by
  induction rows generalizing fuel with
  | nil =>
    rcases fuel with _ | f <;> rfl
  | cons r rs ih =>
    rcases fuel with _ | f
    · simp at hfuel
    have hstream : write_row r ++ '\n' :: write_csv rs ≠ [] := by
      simp
    have hlenr : r.length ≤ (write_row r ++ '\n' :: write_csv rs).length + 1 := by
      have h1 := write_row_length_ge r
      simp only [List.length_append, List.length_cons]
      omega
    have hcells := parse_cells_write_row r (hne r (List.mem_cons_self _ _))
      (write_csv rs) ((write_row r ++ '\n' :: write_csv rs).length + 1) hlenr
    have hrows := ih (fun q hq => hne q (List.mem_cons_of_mem _ hq)) f
      (by simpa using Nat.le_of_succ_le_succ hfuel)
    show parse_rows (f + 1) (write_row r ++ '\n' :: write_csv rs) = _
    unfold parse_rows
    rw [if_neg hstream, hcells]
    simp only [hrows]
    simp

/-- Writing then parsing a table of nonempty records yields, for every
cell, `read_cell` of the cell with its backslashes doubled: the reader
inverts the quote doubling but not the escapechar doubling, and maps NA
tokens to `NaN`. -/
theorem parse_csv_write_csv (rows : List (List String))
    (hne : ∀ r ∈ rows, r ≠ []) :
    parse_csv (write_csv rows) =
      some (rows.map (List.map (fun s => read_cell (bslash_doubled s)))) := by
  unfold parse_csv
  apply parse_rows_write_csv rows hne
  have := write_csv_length_ge rows
  omega

/-- **C7** counterexample: in the CSV generated from the concrete
international order (whose `Shipping Address2` is missing), the
address-line-2 cell of the data row is the non-empty string `NA` that
`address_line_2` writes systematically — yet reading the written file
back with the `pd.read_csv` defaults yields `NaN` at that position,
because `NA` is one of the default NA tokens.  So writing then reading
does not reproduce the value of every non-empty cell. -/
theorem produced_csv_round_trips_cx :
    (((intl_csv_of [row_intl] env_full).getD ([], [])).2.getD 0 []).getD 3 "" = "NA" ∧
    "NA" ≠ "" ∧
    (((parse_csv (write_csv
        (((intl_csv_of [row_intl] env_full).getD ([], [])).1 ::
          ((intl_csv_of [row_intl] env_full).getD ([], [])).2))).getD []).getD 1 []).getD 3
      (some "NA") = none := by
  refine ⟨by rfl, by decide, ?_⟩
  rw [parse_csv_write_csv
    (((intl_csv_of [row_intl] env_full).getD ([], [])).1 ::
      ((intl_csv_of [row_intl] env_full).getD ([], [])).2) (by decide)]
  rfl

/-- **C7** (amended): for every export CSV a run produces, writing the
header and rows in the QUOTE_ALL dialect and reading the file back
reproduces the cell text of every cell that is not one of the
`pd.read_csv` default NA tokens and contains no backslash (the
configured escapechar).  NA-token cells (the empty string among them)
read back as `NaN`, and a backslash in a cell comes back doubled, since
the Python 3.10+ `csv` writer escapes the escapechar while the default
reader does not unescape it.  Cells are compared as the reader's string
tokens, before pandas' per-column dtype inference. -/
theorem produced_csv_round_trips (df : List Row) (env : ConvertEnv) (c : Csv)
    (h : intl_csv_of df env = some c ∨ us_csv_of df env = some c) :
    parse_csv (write_csv (c.1 :: c.2)) =
      some ((c.1 :: c.2).map (List.map (fun s => read_cell (bslash_doubled s)))) ∧
    ∀ row ∈ c.1 :: c.2, ∀ cell ∈ row,
      cell ∉ default_na_values → (∀ ch ∈ cell.data, ch ≠ bslash) →
      read_cell (bslash_doubled cell) = some cell := by
  have hcells : ∀ row ∈ c.1 :: c.2, ∀ cell ∈ row,
      cell ∉ default_na_values → (∀ ch ∈ cell.data, ch ≠ bslash) →
      read_cell (bslash_doubled cell) = some cell := by
    intro row _ cell _ hna hbs
    rw [bslash_doubled_of_no_bslash cell hbs]
    unfold read_cell
    rw [if_neg hna]
  have hne : ∀ r ∈ c.1 :: c.2, r ≠ [] := by
    rcases h with h | h
    · have hc := (produced_csvs_match_templates df env).1 c h
      intro r hr hnil
      rcases List.mem_cons.mp hr with rfl | hr
      · rw [hnil] at hc
        simp at hc
      · have := hc.2 r hr
        rw [hnil] at this
        simp at this
    · have hc := (produced_csvs_match_templates df env).2 c h
      intro r hr hnil
      rcases List.mem_cons.mp hr with rfl | hr
      · rw [hnil] at hc
        simp at hc
      · have := hc.2 r hr
        rw [hnil] at this
        simp at this
  exact ⟨parse_csv_write_csv _ hne, hcells⟩

/-- **C7** witness: the amended statement at the CSV generated from the
concrete international order. -/
theorem produced_csv_round_trips_witness :
    parse_csv (write_csv (((intl_csv_of [row_intl] env_full).getD ([], [])).1 ::
        ((intl_csv_of [row_intl] env_full).getD ([], [])).2)) =
      some ((((intl_csv_of [row_intl] env_full).getD ([], [])).1 ::
        ((intl_csv_of [row_intl] env_full).getD ([], [])).2).map
          (List.map (fun s => read_cell (bslash_doubled s)))) ∧
    ∀ row ∈ ((intl_csv_of [row_intl] env_full).getD ([], [])).1 ::
        ((intl_csv_of [row_intl] env_full).getD ([], [])).2,
      ∀ cell ∈ row, cell ∉ default_na_values →
        (∀ ch ∈ cell.data, ch ≠ bslash) →
        read_cell (bslash_doubled cell) = some cell :=
  produced_csv_round_trips [row_intl] env_full
    ((intl_csv_of [row_intl] env_full).getD ([], [])) (Or.inl (by rfl))

end ShopifyOrders
